import Mathlib

/-!
Verification of the BadmintonHub session-lifecycle and match-recording core.

The definitions below are a shallow embedding of `src/services/mockDb.ts`
(functions `joinSession`, `leaveSession`, `createSession`, `recordMatch`)
and of the match-submission pipeline `MatchRecorder.submitMatch` from the
UI layer.  Conventions of the embedding:

* Calendar dates are modelled as integer day counts (`Nat`); times of day
  as integer minute counts (`Nat`).  The JavaScript instant
  `new Date(date + 'T' + startTime).getTime()` is modelled as
  `date * 1440 + startTime` (minutes); only the ordering of instants
  matters to the code, and day/minute arithmetic preserves it.
  `Date.now()` becomes an explicit `now : Nat` argument.
* A TypeScript field that can be `undefined` at runtime (the
  non-validated template fields of `createSession`) is an `Option`.
  `new Date(undefined).toISOString()` throws a `RangeError`; this is the
  `DbError.invalidDate` case.  Comparing an invalid instant
  (`NaN < now`) is `false` in JavaScript, hence `lockedAt` returns
  `false` when `startTime` is absent.
* `throw new Error(...)` becomes `Except.error` with a constructor of
  `DbError` named after the thrown message; the spec's error taxonomy
  maps onto it as: CapacityExceeded = `sessionFull` ("Session full"),
  SessionLocked = `cannotLeavePast` ("Cannot leave past session"),
  NotFound = `notFound` ("Session not found"), InvalidScore =
  `invalidScore` (the `submitMatch` draw alert), ValidationError has no
  counterpart in the code (see `createSession`).
* The random id generator `'s' + Math.random()...` and the timestamp
  clock are abstracted into explicit arguments (`idGen`, `freshId`,
  `now`); no claim concerns their values.
-/

/-- Session status, `src/types` / `mockDb.ts`: `'OPEN' | 'FULL' | 'COMPLETED'`. -/
inductive SessionStatus where
  | OPEN
  | FULL
  | COMPLETED
deriving DecidableEq, Repr

/-- A session row of the `SESSIONS` collection (`Session` in `src/types`).
`startTime`/`endTime` are `Option` because `createSession` copies them from
the template without validation, so they can be `undefined` at runtime. -/
structure Session where
  id : String
  clubId : String
  date : Nat
  startTime : Option Nat
  endTime : Option Nat
  courtNumber : String
  maxPlayers : Nat
  registeredPlayerIds : List String
  status : SessionStatus
deriving DecidableEq, Repr

/-- A membership row of the `MEMBERS` collection (`ClubMember` in `src/types`). -/
structure ClubMember where
  clubId : String
  userId : String
  role : String
  joinedAt : Nat
  matchesPlayed : Nat
  matchesWon : Nat
deriving DecidableEq, Repr

/-- Winner tag of a match: `'A' | 'B'`. -/
inductive Winner where
  | A
  | B
deriving DecidableEq, Repr

/-- A match row of the `MATCHES` collection (`Match` in `src/types`). -/
structure Match where
  id : String
  sessionId : String
  teamA : List String
  teamB : List String
  scoreA : Nat
  scoreB : Nat
  winner : Winner
  timestamp : Nat
deriving DecidableEq, Repr

/-- The argument of `recordMatch`: `Omit<Match, 'id' | 'timestamp'>`. -/
structure MatchData where
  sessionId : String
  teamA : List String
  teamB : List String
  scoreA : Nat
  scoreB : Nat
  winner : Winner
deriving DecidableEq, Repr

/-- Errors thrown by the embedded operations (`throw new Error(...)` in
`mockDb.ts`, plus the draw alert of `MatchRecorder.submitMatch` and the
`RangeError` raised by `toISOString` on an invalid date). -/
inductive DbError where
  | notFound
  | sessionFull
  | cannotLeavePast
  | invalidScore
  | invalidDate
deriving DecidableEq, Repr

/-- The mutable in-memory store of `mockDb.ts`, restricted to the three
collections the verified core touches (the `MATCHES` collection is named
`matchLog` here because `matches` is a reserved word in Lean). -/
structure Db where
  sessions : List Session
  members : List ClubMember
  matchLog : List Match
deriving DecidableEq, Repr

/-- `mockDb.joinSession` (`mockDb.ts:288-298`), after the store-level
lookup (`SESSIONS.find`; a missing id throws `notFound` and changes
nothing).  Mirrors: idempotent return when the user is already
registered; `throw "Session full"` when `length >= maxPlayers`; otherwise
push the user and set status `FULL` when `length >= maxPlayers`. -/
def joinSession (s : Session) (userId : String) : Except DbError Session :=
  if s.registeredPlayerIds.contains userId then .ok s
  else if s.maxPlayers ≤ s.registeredPlayerIds.length then .error .sessionFull
  else
    let roster := s.registeredPlayerIds ++ [userId]
    .ok { s with registeredPlayerIds := roster,
                 status := if s.maxPlayers ≤ roster.length then .FULL else s.status }

/-- The lock check of `mockDb.leaveSession` (`mockDb.ts:306-307`):
`new Date(session.date + 'T' + session.startTime).getTime() < Date.now()`.
When `startTime` is `undefined` the constructed date is invalid and
`NaN < now` is `false`, hence the `none` branch. -/
def lockedAt (s : Session) (now : Nat) : Bool :=
  match s.startTime with
  | some t => decide (s.date * 1440 + t < now)
  | none => false

/-- `mockDb.leaveSession` (`mockDb.ts:300-312`), after the store-level
lookup.  Mirrors: `throw "Cannot leave past session"` when locked;
otherwise filter the user out of the roster and demote a `FULL` status to
`OPEN` (unconditionally: the code is `if (status === 'FULL') status = 'OPEN'`,
with no check that the roster actually dropped below capacity). -/
def leaveSession (s : Session) (userId : String) (now : Nat) : Except DbError Session :=
  if lockedAt s now then .error .cannotLeavePast
  else .ok { s with
      registeredPlayerIds := s.registeredPlayerIds.filter (fun id => id != userId),
      status := if s.status = .FULL then .OPEN else s.status }

/-- One roster operation on a session: a `joinSession` call, or a
`leaveSession` call made at clock instant `now`. -/
inductive RosterOp where
  | join (userId : String)
  | leave (userId : String) (now : Nat)
deriving DecidableEq, Repr

/-- Apply one roster operation; a thrown error leaves the stored session
unchanged (the exception propagates before any mutation). -/
def applyOp (s : Session) : RosterOp → Session
  | .join u =>
      match joinSession s u with
      | .ok s2 => s2
      | .error _ => s
  | .leave u now =>
      match leaveSession s u now with
      | .ok s2 => s2
      | .error _ => s

/-- Apply a sequence of join/leave calls, left to right. -/
def applyOps (s : Session) (ops : List RosterOp) : Session :=
  ops.foldl applyOp s

/-- The template argument of `createSession` (`Partial<Session>` fields the
code reads).  Every field is optional; the code performs no validation. -/
structure SessionTemplate where
  date : Option Nat
  startTime : Option Nat
  endTime : Option Nat
  courtNumber : Option String
  maxPlayers : Option Nat
deriving DecidableEq, Repr

/-- `data.courtNumber || 'TBD'` — JavaScript `||` also replaces the empty
string (falsy) by the placeholder. -/
def defaultCourt : Option String → String
  | some c => if c = "" then "TBD" else c
  | none => "TBD"

/-- `data.maxPlayers || 8` — JavaScript `||` also replaces `0` (falsy) by 8. -/
def defaultMax : Option Nat → Nat
  | some m => if m = 0 then 8 else m
  | none => 8

/-- `mockDb.createSession` (`mockDb.ts:314-340`).  `new Date(data.date!)`
on a missing date yields an invalid date whose `toISOString()` throws a
`RangeError` in the first loop iteration, before any session is pushed;
this is the `invalidDate` branch (the throw condition depends only on the
template, so checking it up front is observably identical to the loop).
With a valid date, instance `i` is dated `date + 7*i` days
(`setDate(baseDate.getDate() + i*7)` with calendar normalisation), the
time fields are copied unvalidated, court and capacity get their `||`
defaults, the roster is empty and the status `OPEN`. -/
def createSession (idGen : Nat → String) (clubId : String) (t : SessionTemplate)
    (recurrenceWeeks : Nat) : Except DbError (List Session) :=
  match t.date with
  | none => .error .invalidDate
  | some d =>
      .ok ((List.range recurrenceWeeks).map (fun i =>
        { id := idGen i
          clubId := clubId
          date := d + 7 * i
          startTime := t.startTime
          endTime := t.endTime
          courtNumber := defaultCourt t.courtNumber
          maxPlayers := defaultMax t.maxPlayers
          registeredPlayerIds := []
          status := .OPEN }))

/-- Store-level view of `createSession`: on success the created instances
are appended to `SESSIONS`; on the date error nothing was pushed (the
throw precedes the first `SESSIONS.push`). -/
def createSessionStore (idGen : Nat → String) (clubId : String) (t : SessionTemplate)
    (recurrenceWeeks : Nat) (db : Db) : Db × Except DbError (List Session) :=
  match createSession idGen clubId t recurrenceWeeks with
  | .ok ss => ({ db with sessions := db.sessions ++ ss }, .ok ss)
  | .error e => (db, .error e)

/-- The winning team of a match: `winner === 'A' ? teamA : teamB`. -/
def winningTeam (md : MatchData) : List String :=
  match md.winner with
  | .A => md.teamA
  | .B => md.teamB

/-- The per-row ledger update of `recordMatch` (`mockDb.ts:363-370`):
a membership row of the session's club whose user is a participant gets
`matchesPlayed += 1`, plus `matchesWon += 1` when the user is on the
winning team; every other row is untouched. -/
def updateMember (clubId : String) (allPlayers winTeam : List String)
    (m : ClubMember) : ClubMember :=
  if (m.clubId == clubId) && allPlayers.contains m.userId then
    { m with matchesPlayed := m.matchesPlayed + 1,
             matchesWon := m.matchesWon + (if winTeam.contains m.userId then 1 else 0) }
  else m

/-- `mockDb.recordMatch` (`mockDb.ts:348-374`).  Note the code never
throws: the new match is pushed unconditionally, and the ledger update is
guarded by `if (session)` — when the session id resolves to nothing the
match is still stored and returned, and the ledger is silently skipped. -/
def recordMatch (freshId : String) (now : Nat) (md : MatchData) (db : Db) : Db × Match :=
  let newMatch : Match :=
    { id := freshId, sessionId := md.sessionId, teamA := md.teamA, teamB := md.teamB,
      scoreA := md.scoreA, scoreB := md.scoreB, winner := md.winner, timestamp := now }
  let db1 := { db with matchLog := db.matchLog ++ [newMatch] }
  match db.sessions.find? (fun s => s.id == md.sessionId) with
  | some session =>
      let upd := updateMember session.clubId (md.teamA ++ md.teamB) (winningTeam md)
      ({ db1 with members := db1.members.map upd }, newMatch)
  | none => (db1, newMatch)

/-- `MatchRecorder.submitMatch` (UI layer, `src/unnamed/part_001:184-197`):
the tie guard `if (scoreA === scoreB) return alert("Matches cannot end in a
draw")` (the spec's InvalidScore), then `recordMatch` with
`winner: scoreA > scoreB ? 'A' : 'B'`. -/
def submitMatch (freshId : String) (now : Nat) (sessionId : String)
    (teamA teamB : List String) (scoreA scoreB : Nat) (db : Db) :
    Except DbError (Db × Match) :=
  if scoreA = scoreB then .error .invalidScore
  else .ok (recordMatch freshId now
    { sessionId := sessionId, teamA := teamA, teamB := teamB,
      scoreA := scoreA, scoreB := scoreB,
      winner := if scoreB < scoreA then .A else .B } db)

/-- The store after a `submitMatch` call: unchanged when the call failed. -/
def applySubmit (freshId : String) (now : Nat) (sessionId : String)
    (teamA teamB : List String) (scoreA scoreB : Nat) (db : Db) : Db :=
  match submitMatch freshId now sessionId teamA teamB scoreA scoreB db with
  | .ok p => p.1
  | .error _ => db

/-- A sequence of `recordMatch` calls, each with its own fresh id, clock
instant and payload, applied to the store left to right. -/
def recordAll (calls : List (String × Nat × MatchData)) (db : Db) : Db :=
  calls.foldl (fun d c => (recordMatch c.1 c.2.1 c.2.2 d).1) db

/-! ## Helper lemmas about the session lifecycle -/

/-- Neither join nor leave changes a session's capacity. -/
theorem applyOp_maxPlayers (s : Session) (op : RosterOp) :
    (applyOp s op).maxPlayers = s.maxPlayers := by
  cases op with
  | join u =>
      by_cases hc : u ∈ s.registeredPlayerIds
      · simp [applyOp, joinSession, hc]
      · by_cases hf : s.maxPlayers ≤ s.registeredPlayerIds.length
        · simp [applyOp, joinSession, hc, hf]
        · simp [applyOp, joinSession, hc, hf]
  | leave u now =>
      by_cases hl : lockedAt s now = true
      · simp [applyOp, leaveSession, hl]
      · simp [applyOp, leaveSession, hl]

/-- One join/leave call keeps the roster within capacity. -/
theorem applyOp_roster_le (s : Session) (op : RosterOp)
    (h : s.registeredPlayerIds.length ≤ s.maxPlayers) :
    (applyOp s op).registeredPlayerIds.length ≤ (applyOp s op).maxPlayers := by
  cases op with
  | join u =>
      by_cases hc : u ∈ s.registeredPlayerIds
      · simp [applyOp, joinSession, hc]; exact h
      · by_cases hf : s.maxPlayers ≤ s.registeredPlayerIds.length
        · simp [applyOp, joinSession, hc, hf]; exact h
        · simp [applyOp, joinSession, hc, hf]
          omega
  | leave u now =>
      by_cases hl : lockedAt s now = true
      · simp [applyOp, leaveSession, hl]; exact h
      · simp [applyOp, leaveSession, hl]
        exact le_trans (List.length_filter_le _ _) h

/-- Any sequence of join/leave calls keeps the roster within capacity. -/
theorem applyOps_roster_le (ops : List RosterOp) (s : Session)
    (h : s.registeredPlayerIds.length ≤ s.maxPlayers) :
    (applyOps s ops).registeredPlayerIds.length ≤ (applyOps s ops).maxPlayers := by
  induction ops generalizing s with
  | nil => exact h
  | cons op rest ih =>
      have step := applyOp_roster_le s op h
      have hm := applyOp_maxPlayers s op
      simp only [applyOps, List.foldl_cons]
      exact ih (applyOp s op) (by omega)

/-- The state invariant actually preserved by the code: the session is not
COMPLETED, the roster is within capacity, and a FULL status implies the
roster is exactly at capacity (the converse direction of the spec's
derivation is *not* preserved; see the C1 counterexample). -/
def RosterInv (s : Session) : Prop :=
  s.status ≠ .COMPLETED ∧
  s.registeredPlayerIds.length ≤ s.maxPlayers ∧
  (s.status = .FULL → s.registeredPlayerIds.length = s.maxPlayers)

instance (s : Session) : Decidable (RosterInv s) := by
  unfold RosterInv; infer_instance

/-- One join/leave call preserves `RosterInv`. -/
theorem applyOp_rosterInv (s : Session) (op : RosterOp) (h : RosterInv s) :
    RosterInv (applyOp s op) := by
  obtain ⟨h1, h2, h3⟩ := h
  cases op with
  | join u =>
      by_cases hc : u ∈ s.registeredPlayerIds
      · simp [applyOp, joinSession, hc]; exact ⟨h1, h2, h3⟩
      · by_cases hf : s.maxPlayers ≤ s.registeredPlayerIds.length
        · simp [applyOp, joinSession, hc, hf]; exact ⟨h1, h2, h3⟩
        · by_cases hfull : s.maxPlayers ≤ s.registeredPlayerIds.length + 1
          · simp [RosterInv, applyOp, joinSession, hc, hf, hfull]
            omega
          · simp [RosterInv, applyOp, joinSession, hc, hf, hfull]
            refine ⟨h1, by omega, fun hst => absurd (h3 hst) (by omega)⟩
  | leave u now =>
      by_cases hl : lockedAt s now = true
      · simp [applyOp, leaveSession, hl]; exact ⟨h1, h2, h3⟩
      · by_cases hst : s.status = .FULL
        · simp [RosterInv, applyOp, leaveSession, hl, hst]
          exact le_trans (List.length_filter_le _ _) h2
        · simp [RosterInv, applyOp, leaveSession, hl, hst]
          exact ⟨h1, le_trans (List.length_filter_le _ _) h2⟩

/-- Any sequence of join/leave calls preserves `RosterInv`. -/
theorem applyOps_rosterInv (ops : List RosterOp) (s : Session) (h : RosterInv s) :
    RosterInv (applyOps s ops) := by
  induction ops generalizing s with
  | nil => exact h
  | cons op rest ih =>
      simp only [applyOps, List.foldl_cons]
      exact ih (applyOp s op) (applyOp_rosterInv s op h)

/-- Filtering out an id that is not on the roster is a no-op. -/
theorem filter_ne_of_not_contains (l : List String) (u : String)
    (h : l.contains u = false) : l.filter (fun id => id != u) = l := by
  rw [List.filter_eq_self]
  intro a ha
  simp only [List.contains_eq_any_beq] at h
  simp only [bne_iff_ne, ne_eq]
  intro heq
  subst heq
  simp [List.any_eq_true] at h
  exact h a ha rfl

/-! ## Claims C1, C2, C5, C6: session lifecycle -/

/-- Concrete input for C1: a freshly created session with capacity 1
(OPEN, empty roster, a start instant in the future of clock 0). -/
def sessionC1 : Session :=
  ⟨"s1", "c1", 1, some 0, some 120, "TBD", 1, [], .OPEN⟩

/-- C1 (counterexample): the claimed status derivation fails on the code.
From a fresh OPEN session of capacity 1, `join u1` makes it FULL; a
`leave` call for `u2` — who is not on the roster — resets the status to
OPEN (`leaveSession` demotes FULL unconditionally) while the roster length
still equals `maxPlayers`, so `status = FULL ↔ length = maxPlayers` fails. -/
theorem claim_c1_counterexample :
    (applyOps sessionC1 [RosterOp.join "u1", RosterOp.leave "u2" 0]).status
        = SessionStatus.OPEN ∧
    (applyOps sessionC1 [RosterOp.join "u1", RosterOp.leave "u2" 0]).registeredPlayerIds.length
        = (applyOps sessionC1 [RosterOp.join "u1", RosterOp.leave "u2" 0]).maxPlayers ∧
    ¬ ((applyOps sessionC1 [RosterOp.join "u1", RosterOp.leave "u2" 0]).status
          = SessionStatus.FULL ↔
        (applyOps sessionC1 [RosterOp.join "u1", RosterOp.leave "u2" 0]).registeredPlayerIds.length
          = (applyOps sessionC1 [RosterOp.join "u1", RosterOp.leave "u2" 0]).maxPlayers) := by
  decide

/-- C1 (amended): for a non-COMPLETED session whose roster is within
capacity and whose FULL status (if any) coincides with a full roster,
any sequence of join/leave calls keeps the session non-COMPLETED and
preserves the forward direction `status = FULL → length = maxPlayers`;
the backward direction is refuted by `claim_c1_counterexample`. -/
theorem claim_c1_amended (s : Session) (ops : List RosterOp) (h : RosterInv s) :
    (applyOps s ops).status ≠ SessionStatus.COMPLETED ∧
    ((applyOps s ops).status = SessionStatus.FULL →
      (applyOps s ops).registeredPlayerIds.length = (applyOps s ops).maxPlayers) := by
  have hinv := applyOps_rosterInv ops s h
  exact ⟨hinv.1, hinv.2.2⟩

/-- Witness for `claim_c1_amended` at a concrete input. -/
theorem claim_c1_amended_witness :
    (applyOps sessionC1 [RosterOp.join "u1"]).status ≠ SessionStatus.COMPLETED ∧
    ((applyOps sessionC1 [RosterOp.join "u1"]).status = SessionStatus.FULL →
      (applyOps sessionC1 [RosterOp.join "u1"]).registeredPlayerIds.length
        = (applyOps sessionC1 [RosterOp.join "u1"]).maxPlayers) :=
  claim_c1_amended sessionC1 [RosterOp.join "u1"] (by decide)

/-- Concrete input for C2: a FULL capacity-2 session with two players. -/
def sessionC2 : Session :=
  ⟨"s4", "c1", 1, some 0, some 120, "TBD", 2, ["u1", "u2"], .FULL⟩

/-- C2: from any session whose roster is within capacity, the bound
`length ≤ maxPlayers` holds after any sequence of join/leave calls; and a
join by an unregistered user against a roster at capacity fails with
`sessionFull` (the spec's CapacityExceeded) leaving the session unchanged. -/
theorem claim_c2_capacity (s : Session) (ops : List RosterOp) (u : String)
    (h : s.registeredPlayerIds.length ≤ s.maxPlayers) :
    (applyOps s ops).registeredPlayerIds.length ≤ (applyOps s ops).maxPlayers ∧
    (u ∉ s.registeredPlayerIds → s.registeredPlayerIds.length = s.maxPlayers →
      joinSession s u = .error .sessionFull ∧ applyOp s (.join u) = s) := by
  refine ⟨applyOps_roster_le ops s h, fun hu hm => ?_⟩
  have hf : s.maxPlayers ≤ s.registeredPlayerIds.length := le_of_eq hm.symm
  exact ⟨by simp [joinSession, hu, hf], by simp [applyOp, joinSession, hu, hf]⟩

/-- Witness for `claim_c2_capacity` at a concrete input. -/
theorem claim_c2_capacity_witness :
    (applyOps sessionC2 [RosterOp.join "u3"]).registeredPlayerIds.length
        ≤ (applyOps sessionC2 [RosterOp.join "u3"]).maxPlayers ∧
    ("u3" ∉ sessionC2.registeredPlayerIds →
      sessionC2.registeredPlayerIds.length = sessionC2.maxPlayers →
      joinSession sessionC2 "u3" = .error .sessionFull ∧
      applyOp sessionC2 (.join "u3") = sessionC2) :=
  claim_c2_capacity sessionC2 [RosterOp.join "u3"] "u3" (by decide)

/-- Concrete input for C5: the seeded COMPLETED session `s2` of
`mockDb.ts` (capacity 6), with room on the roster. -/
def sessionC5 : Session :=
  ⟨"s2", "c1", 1, some 0, some 120, "4", 6, ["u1", "u3"], .COMPLETED⟩

/-- C5 (counterexample): neither `joinSession` nor `leaveSession` checks
the COMPLETED status.  On a COMPLETED session with spare capacity, join
succeeds and appends to the roster; on a COMPLETED session that has not
started, leave succeeds and removes the user.  The claim says both must
fail and the roster must never change. -/
theorem claim_c5_counterexample :
    sessionC5.status = SessionStatus.COMPLETED ∧
    joinSession sessionC5 "u9"
      = .ok { sessionC5 with registeredPlayerIds := ["u1", "u3", "u9"] } ∧
    leaveSession sessionC5 "u1" 0
      = .ok { sessionC5 with registeredPlayerIds := ["u3"] } :=
  ⟨rfl, rfl, rfl⟩

/-- C5 (amended): a COMPLETED session's roster is mutable.  Join ignores
the status: with a new user and spare capacity it succeeds and appends
(the status even flips to FULL if the roster reaches capacity).  Leave
ignores it too: before the start instant it succeeds and filters the
user out, status staying COMPLETED. -/
theorem claim_c5_amended (s : Session) (u : String) (now : Nat)
    (h : s.status = SessionStatus.COMPLETED) :
    (u ∉ s.registeredPlayerIds → s.registeredPlayerIds.length < s.maxPlayers →
      joinSession s u = .ok { s with
        registeredPlayerIds := s.registeredPlayerIds ++ [u],
        status := if s.maxPlayers ≤ s.registeredPlayerIds.length + 1
                  then SessionStatus.FULL else SessionStatus.COMPLETED }) ∧
    (lockedAt s now = false →
      leaveSession s u now = .ok { s with
        registeredPlayerIds := s.registeredPlayerIds.filter (fun id => id != u) }) := by
  constructor
  · intro hu hlt
    have hf : ¬ s.maxPlayers ≤ s.registeredPlayerIds.length := by omega
    simp [joinSession, hu, hf, h]
  · intro hl
    simp [leaveSession, hl, h]

/-- Witness for `claim_c5_amended` at a concrete input. -/
theorem claim_c5_amended_witness :
    ("u9" ∉ sessionC5.registeredPlayerIds →
      sessionC5.registeredPlayerIds.length < sessionC5.maxPlayers →
      joinSession sessionC5 "u9" = .ok { sessionC5 with
        registeredPlayerIds := sessionC5.registeredPlayerIds ++ ["u9"],
        status := if sessionC5.maxPlayers ≤ sessionC5.registeredPlayerIds.length + 1
                  then SessionStatus.FULL else SessionStatus.COMPLETED }) ∧
    (lockedAt sessionC5 0 = false →
      leaveSession sessionC5 "u9" 0 = .ok { sessionC5 with
        registeredPlayerIds := sessionC5.registeredPlayerIds.filter (fun id => id != "u9") }) :=
  claim_c5_amended sessionC5 "u9" 0 rfl

/-- Concrete input for C6: a session whose start instant (in minutes,
`date * 1440 + startTime`) equals the clock instant 100 exactly. -/
def sessionC6 : Session :=
  ⟨"s3", "c1", 0, some 100, some 220, "TBD", 2, ["u1"], .OPEN⟩

/-- C6 (counterexample): at the exact start instant the code does *not*
lock the session — the check is the strict `getTime() < Date.now()` — so
a leave at `now = 100` on a session starting at instant 100 succeeds and
removes the user, while the claim requires a SessionLocked failure for a
start "at or before" the current instant. -/
theorem claim_c6_counterexample :
    sessionC6.startTime = some 100 ∧ sessionC6.date = 0 ∧
    leaveSession sessionC6 "u1" 100
      = .ok { sessionC6 with registeredPlayerIds := [] } :=
  ⟨rfl, rfl, rfl⟩

/-- C6 (amended): leave fails with `cannotLeavePast` (the spec's
SessionLocked) exactly when the start instant is *strictly before* the
current instant; at or after `now` it succeeds, removing the user from
the roster — a no-op on the roster when the user is absent. -/
theorem claim_c6_amended (s : Session) (u : String) (now t : Nat)
    (h : s.startTime = some t) :
    (s.date * 1440 + t < now →
      leaveSession s u now = .error .cannotLeavePast) ∧
    (now ≤ s.date * 1440 + t →
      leaveSession s u now = .ok { s with
        registeredPlayerIds := s.registeredPlayerIds.filter (fun id => id != u),
        status := if s.status = SessionStatus.FULL then SessionStatus.OPEN
                  else s.status }) ∧
    (s.registeredPlayerIds.contains u = false →
      s.registeredPlayerIds.filter (fun id => id != u) = s.registeredPlayerIds) := by
  refine ⟨?_, ?_, filter_ne_of_not_contains _ _⟩
  · intro hlt
    have hlock : lockedAt s now = true := by
      simp [lockedAt, h]
      omega
    simp [leaveSession, hlock]
  · intro hge
    have hlock : lockedAt s now = false := by
      simp [lockedAt, h]
      omega
    simp [leaveSession, hlock]

/-- Witness for `claim_c6_amended` at a concrete input. -/
theorem claim_c6_amended_witness :
    (sessionC6.date * 1440 + 100 < 99 →
      leaveSession sessionC6 "u1" 99 = .error .cannotLeavePast) ∧
    (99 ≤ sessionC6.date * 1440 + 100 →
      leaveSession sessionC6 "u1" 99 = .ok { sessionC6 with
        registeredPlayerIds := sessionC6.registeredPlayerIds.filter (fun id => id != "u1"),
        status := if sessionC6.status = SessionStatus.FULL then SessionStatus.OPEN
                  else sessionC6.status }) ∧
    (sessionC6.registeredPlayerIds.contains "u1" = false →
      sessionC6.registeredPlayerIds.filter (fun id => id != "u1")
        = sessionC6.registeredPlayerIds) :=
  claim_c6_amended sessionC6 "u1" 99 100 rfl

/-! ## Claims C7, C8: session creation -/

/-- A concrete deterministic stand-in for the random id generator. -/
def idGen0 : Nat → String := fun i => String.append "s" (toString i)

/-- Concrete input for C7: a template with a date but no start time. -/
def templateC7 : SessionTemplate := ⟨some 10, none, some 1260, none, none⟩

/-- C7 (counterexample): a template missing the required `startTime` does
*not* fail — `createSession` performs no field validation and happily
creates a session whose `startTime` is absent (`undefined` at runtime),
while the claim requires a ValidationError and no created instance. -/
theorem claim_c7_counterexample :
    templateC7.startTime = none ∧
    createSession idGen0 "c1" templateC7 1
      = .ok [⟨"s0", "c1", 10, none, some 1260, "TBD", 8, [], .OPEN⟩] :=
  ⟨rfl, rfl⟩

/-- C7 (amended): only a missing `date` makes `createSession` fail — with
the `RangeError` of `toISOString` on an invalid date (`invalidDate`
here), not a typed ValidationError — and it does so before any instance
is pushed, leaving the store unchanged; missing start/end times are not
validated at all and yield sessions with the field unset. -/
theorem claim_c7_amended (idGen : Nat → String) (clubId : String)
    (t : SessionTemplate) (recurrenceWeeks : Nat) (db : Db)
    (h : t.date = none) :
    createSessionStore idGen clubId t recurrenceWeeks db
      = (db, .error .invalidDate) := by
  simp [createSessionStore, createSession, h]

/-- Witness for `claim_c7_amended` at a concrete input. -/
theorem claim_c7_amended_witness :
    createSessionStore idGen0 "c1" ⟨none, some 1140, some 1260, none, none⟩ 3
        ⟨[], [], []⟩
      = (⟨[], [], []⟩, .error .invalidDate) :=
  claim_c7_amended idGen0 "c1" ⟨none, some 1140, some 1260, none, none⟩ 3
    ⟨[], [], []⟩ rfl

/-- C8: for a template with all required fields present (and the optional
fields, when set, not JavaScript-falsy) and any `recurrenceWeeks ≥ 1`,
`createSession` returns exactly `recurrenceWeeks` sessions; instance `i`
is dated `date + 7 * i`, copies the time fields verbatim, gets the court
placeholder `"TBD"` when unset and capacity 8 when unset (the set values
otherwise), and starts with an empty roster and status OPEN. -/
theorem claim_c8_recurrence (idGen : Nat → String) (clubId : String)
    (t : SessionTemplate) (recurrenceWeeks d st et : Nat)
    (hd : t.date = some d) (hs : t.startTime = some st) (he : t.endTime = some et)
    (hc : ∀ c, t.courtNumber = some c → c ≠ "")
    (hm : ∀ m, t.maxPlayers = some m → m ≠ 0)
    (hk : 1 ≤ recurrenceWeeks) :
    ∃ ss : List Session, createSession idGen clubId t recurrenceWeeks = .ok ss ∧
      ss.length = recurrenceWeeks ∧
      ∀ i (hi : i < ss.length),
        (ss.get ⟨i, hi⟩).id = idGen i ∧
        (ss.get ⟨i, hi⟩).clubId = clubId ∧
        (ss.get ⟨i, hi⟩).date = d + 7 * i ∧
        (ss.get ⟨i, hi⟩).startTime = some st ∧
        (ss.get ⟨i, hi⟩).endTime = some et ∧
        (ss.get ⟨i, hi⟩).courtNumber = t.courtNumber.getD "TBD" ∧
        (ss.get ⟨i, hi⟩).maxPlayers = t.maxPlayers.getD 8 ∧
        (ss.get ⟨i, hi⟩).registeredPlayerIds = [] ∧
        (ss.get ⟨i, hi⟩).status = SessionStatus.OPEN := by
  refine ⟨(List.range recurrenceWeeks).map (fun i =>
      ({ id := idGen i, clubId := clubId, date := d + 7 * i,
         startTime := t.startTime, endTime := t.endTime,
         courtNumber := defaultCourt t.courtNumber,
         maxPlayers := defaultMax t.maxPlayers,
         registeredPlayerIds := [], status := .OPEN } : Session)), ?_, ?_, ?_⟩
  · simp [createSession, hd]
  · simp
  · intro i hi
    simp only [List.length_map, List.length_range] at hi
    simp only [List.get_eq_getElem, List.getElem_map, List.getElem_range]
    refine ⟨trivial, trivial, trivial, hs, he, ?_, ?_, trivial, trivial⟩
    · cases hcourt : t.courtNumber with
      | none => simp [defaultCourt]
      | some c => simp [defaultCourt, hc c hcourt]
    · cases hmax : t.maxPlayers with
      | none => simp [defaultMax]
      | some m => simp [defaultMax, hm m hmax]

/-- Witness for `claim_c8_recurrence`: the spec's three-week scenario. -/
theorem claim_c8_recurrence_witness :
    ∃ ss : List Session,
      createSession idGen0 "c1" ⟨some 0, some 1140, some 1260, none, none⟩ 3
        = .ok ss ∧
      ss.length = 3 ∧
      ∀ i (hi : i < ss.length),
        (ss.get ⟨i, hi⟩).id = idGen0 i ∧
        (ss.get ⟨i, hi⟩).clubId = "c1" ∧
        (ss.get ⟨i, hi⟩).date = 0 + 7 * i ∧
        (ss.get ⟨i, hi⟩).startTime = some 1140 ∧
        (ss.get ⟨i, hi⟩).endTime = some 1260 ∧
        (ss.get ⟨i, hi⟩).courtNumber
          = (SessionTemplate.mk (some 0) (some 1140) (some 1260) none none).courtNumber.getD "TBD" ∧
        (ss.get ⟨i, hi⟩).maxPlayers
          = (SessionTemplate.mk (some 0) (some 1140) (some 1260) none none).maxPlayers.getD 8 ∧
        (ss.get ⟨i, hi⟩).registeredPlayerIds = [] ∧
        (ss.get ⟨i, hi⟩).status = SessionStatus.OPEN :=
  claim_c8_recurrence idGen0 "c1" ⟨some 0, some 1140, some 1260, none, none⟩ 3 0 1140 1260
    rfl rfl rfl (fun c hc => by cases hc) (fun m hm => by cases hm) (by omega)

/-! ## Helper lemmas about match recording -/

/-- The match returned by `recordMatch` is the payload plus the fresh id
and timestamp, whether or not the session id resolved. -/
theorem recordMatch_snd (freshId : String) (now : Nat) (md : MatchData) (db : Db) :
    (recordMatch freshId now md db).2
      = ⟨freshId, md.sessionId, md.teamA, md.teamB, md.scoreA, md.scoreB,
         md.winner, now⟩ := by
  cases hfind : db.sessions.find? (fun s => s.id == md.sessionId) with
  | none => simp [recordMatch, hfind]
  | some sess => simp [recordMatch, hfind]

/-- The per-row ledger update cannot push `matchesWon` past `matchesPlayed`. -/
theorem updateMember_won_le (clubId : String) (ap wt : List String) (m : ClubMember)
    (h : m.matchesWon ≤ m.matchesPlayed) :
    (updateMember clubId ap wt m).matchesWon
      ≤ (updateMember clubId ap wt m).matchesPlayed := by
  unfold updateMember
  by_cases hc : ((m.clubId == clubId) && ap.contains m.userId) = true
  · rw [if_pos hc]
    by_cases hw : wt.contains m.userId = true
    · simp only [hw, if_true]
      omega
    · simp only [hw, if_false, Bool.false_eq_true]
      omega
  · rw [if_neg hc]
    exact h

/-- One `recordMatch` call preserves `matchesWon ≤ matchesPlayed` on every
membership row. -/
theorem recordMatch_won_le (freshId : String) (now : Nat) (md : MatchData) (db : Db)
    (h : ∀ m ∈ db.members, m.matchesWon ≤ m.matchesPlayed) :
    ∀ m ∈ (recordMatch freshId now md db).1.members,
      m.matchesWon ≤ m.matchesPlayed := by
  intro m hm
  cases hfind : db.sessions.find? (fun s => s.id == md.sessionId) with
  | none =>
      simp [recordMatch, hfind] at hm
      exact h m hm
  | some sess =>
      simp only [recordMatch, hfind] at hm
      simp only [List.mem_map] at hm
      obtain ⟨m0, hm0, rfl⟩ := hm
      exact updateMember_won_le _ _ _ m0 (h m0 hm0)

/-! ## Claims C3, C4, C9, C10: match recording -/

/-- C3: when the session id resolves to a session, every membership row of
that session's club whose user is a participant gets `matchesPlayed`
incremented by exactly 1 and `matchesWon` incremented by exactly 1 when
(and only when) the user is on the winning team; every other membership
row — other clubs, or non-member participants — is unchanged. -/
theorem claim_c3_ledger (freshId : String) (now : Nat) (md : MatchData) (db : Db)
    (sess : Session)
    (h : db.sessions.find? (fun s => s.id == md.sessionId) = some sess)
    (i : Nat) (hi : i < db.members.length)
    (hj : i < (recordMatch freshId now md db).1.members.length) :
    ((db.members.get ⟨i, hi⟩).clubId = sess.clubId ∧
        (db.members.get ⟨i, hi⟩).userId ∈ md.teamA ++ md.teamB →
      ((recordMatch freshId now md db).1.members.get ⟨i, hj⟩).matchesPlayed
          = (db.members.get ⟨i, hi⟩).matchesPlayed + 1 ∧
      ((recordMatch freshId now md db).1.members.get ⟨i, hj⟩).matchesWon
          = (db.members.get ⟨i, hi⟩).matchesWon
            + (if (db.members.get ⟨i, hi⟩).userId ∈ winningTeam md then 1 else 0) ∧
      ((recordMatch freshId now md db).1.members.get ⟨i, hj⟩).userId
          = (db.members.get ⟨i, hi⟩).userId ∧
      ((recordMatch freshId now md db).1.members.get ⟨i, hj⟩).clubId
          = (db.members.get ⟨i, hi⟩).clubId) ∧
    (¬ ((db.members.get ⟨i, hi⟩).clubId = sess.clubId ∧
        (db.members.get ⟨i, hi⟩).userId ∈ md.teamA ++ md.teamB) →
      (recordMatch freshId now md db).1.members.get ⟨i, hj⟩
        = db.members.get ⟨i, hi⟩) := by
  have hmem : (recordMatch freshId now md db).1.members
      = db.members.map
          (updateMember sess.clubId (md.teamA ++ md.teamB) (winningTeam md)) := by
    simp [recordMatch, h]
  constructor
  · rintro ⟨h1, h2⟩
    simp only [hmem, List.get_eq_getElem, List.getElem_map]
    have hcond : ((db.members[i].clubId == sess.clubId)
        && (md.teamA ++ md.teamB).contains db.members[i].userId) = true := by
      simp only [Bool.and_eq_true, beq_iff_eq, List.elem_iff]
      exact ⟨h1, h2⟩
    unfold updateMember
    rw [if_pos hcond]
    refine ⟨rfl, ?_, rfl, rfl⟩
    by_cases hw : db.members[i].userId ∈ winningTeam md
    · have : (winningTeam md).contains db.members[i].userId = true :=
        List.elem_iff.mpr hw
      simp [this, hw]
    · have : ¬ (winningTeam md).contains db.members[i].userId = true :=
        fun hcontra => hw (List.elem_iff.mp hcontra)
      simp [this, hw]
  · intro hn
    simp only [hmem, List.get_eq_getElem, List.getElem_map]
    have hcond : ¬ ((db.members[i].clubId == sess.clubId)
        && (md.teamA ++ md.teamB).contains db.members[i].userId) = true := by
      simp only [Bool.and_eq_true, beq_iff_eq, List.elem_iff]
      exact hn
    unfold updateMember
    rw [if_neg hcond]

/-- Concrete store for the C3 witness: one session of club c1 and two
zero-count members, plus an unrelated member of club c2. -/
def dbC3 : Db :=
  ⟨[⟨"s1", "c1", 1, some 0, some 120, "TBD", 8, ["u1", "u2"], .OPEN⟩],
   [⟨"c1", "u1", "member", 0, 0, 0⟩, ⟨"c1", "u2", "member", 0, 0, 0⟩,
    ⟨"c2", "u1", "member", 0, 5, 5⟩],
   []⟩

/-- Payload for the C3 witness: u1 beats u2, 21-10, winner A. -/
def mdC3 : MatchData := ⟨"s1", ["u1"], ["u2"], 21, 10, .A⟩

/-- Witness for `claim_c3_ledger`: the winning member u1 (row 0) of club
c1 gets played+1 and won+1. -/
theorem claim_c3_ledger_witness :
    ((dbC3.members.get ⟨0, by decide⟩).clubId
        = (Session.mk "s1" "c1" 1 (some 0) (some 120) "TBD" 8 ["u1", "u2"] .OPEN).clubId ∧
        (dbC3.members.get ⟨0, by decide⟩).userId ∈ mdC3.teamA ++ mdC3.teamB →
      ((recordMatch "m9" 3 mdC3 dbC3).1.members.get ⟨0, by decide⟩).matchesPlayed
          = (dbC3.members.get ⟨0, by decide⟩).matchesPlayed + 1 ∧
      ((recordMatch "m9" 3 mdC3 dbC3).1.members.get ⟨0, by decide⟩).matchesWon
          = (dbC3.members.get ⟨0, by decide⟩).matchesWon
            + (if (dbC3.members.get ⟨0, by decide⟩).userId ∈ winningTeam mdC3 then 1 else 0) ∧
      ((recordMatch "m9" 3 mdC3 dbC3).1.members.get ⟨0, by decide⟩).userId
          = (dbC3.members.get ⟨0, by decide⟩).userId ∧
      ((recordMatch "m9" 3 mdC3 dbC3).1.members.get ⟨0, by decide⟩).clubId
          = (dbC3.members.get ⟨0, by decide⟩).clubId) ∧
    (¬ ((dbC3.members.get ⟨0, by decide⟩).clubId
        = (Session.mk "s1" "c1" 1 (some 0) (some 120) "TBD" 8 ["u1", "u2"] .OPEN).clubId ∧
        (dbC3.members.get ⟨0, by decide⟩).userId ∈ mdC3.teamA ++ mdC3.teamB) →
      (recordMatch "m9" 3 mdC3 dbC3).1.members.get ⟨0, by decide⟩
        = dbC3.members.get ⟨0, by decide⟩) :=
  claim_c3_ledger "m9" 3 mdC3 dbC3
    (Session.mk "s1" "c1" 1 (some 0) (some 120) "TBD" 8 ["u1", "u2"] .OPEN)
    (by decide) 0 (by decide) (by decide)

/-- C4: a tied score makes the submission pipeline fail with
`invalidScore` (the spec's InvalidScore), leaving the store untouched;
with distinct scores it succeeds and the created match's winner is `A`
exactly when `scoreA > scoreB`, and `B` exactly when `scoreA < scoreB`. -/
theorem claim_c4_tie_and_winner (freshId : String) (now : Nat) (sessionId : String)
    (teamA teamB : List String) (scoreA scoreB : Nat) (db : Db) :
    (scoreA = scoreB →
      submitMatch freshId now sessionId teamA teamB scoreA scoreB db
          = .error .invalidScore ∧
      applySubmit freshId now sessionId teamA teamB scoreA scoreB db = db) ∧
    (scoreA ≠ scoreB →
      ∃ p : Db × Match,
        submitMatch freshId now sessionId teamA teamB scoreA scoreB db = .ok p ∧
        (p.2.winner = Winner.A ↔ scoreB < scoreA) ∧
        (p.2.winner = Winner.B ↔ scoreA < scoreB)) := by
  constructor
  · intro he
    exact ⟨by simp [submitMatch, he], by simp [applySubmit, submitMatch, he]⟩
  · intro hne
    refine ⟨recordMatch freshId now
      ⟨sessionId, teamA, teamB, scoreA, scoreB,
        if scoreB < scoreA then .A else .B⟩ db,
      by simp [submitMatch, hne], ?_, ?_⟩
    · rw [recordMatch_snd]
      by_cases hlt : scoreB < scoreA
      · simp [hlt]
      · simp [hlt]
    · rw [recordMatch_snd]
      by_cases hlt : scoreB < scoreA
      · simp [hlt]
        omega
      · simp [hlt]
        omega

/-- Witness for `claim_c4_tie_and_winner`: the spec's 15-15 tie scenario
on an empty store. -/
theorem claim_c4_tie_and_winner_witness :
    submitMatch "m1" 0 "sX" ["u1"] ["u2"] 15 15 ⟨[], [], []⟩
        = .error .invalidScore ∧
    applySubmit "m1" 0 "sX" ["u1"] ["u2"] 15 15 ⟨[], [], []⟩ = ⟨[], [], []⟩ :=
  (claim_c4_tie_and_winner "m1" 0 "sX" ["u1"] ["u2"] 15 15 ⟨[], [], []⟩).1 rfl

/-- C9: `matchesWon ≤ matchesPlayed` on every membership row is preserved
by any sequence of `recordMatch` calls. -/
theorem claim_c9_ledger_le (calls : List (String × Nat × MatchData)) (db : Db)
    (h : ∀ m ∈ db.members, m.matchesWon ≤ m.matchesPlayed) :
    ∀ m ∈ (recordAll calls db).members, m.matchesWon ≤ m.matchesPlayed := by
  induction calls generalizing db with
  | nil => exact h
  | cons c rest ih =>
      simp only [recordAll, List.foldl_cons]
      have hstep := recordMatch_won_le c.1 c.2.1 c.2.2 db h
      simpa only [recordAll] using ih (recordMatch c.1 c.2.1 c.2.2 db).1 hstep

/-- Witness for `claim_c9_ledger_le` at a concrete input: after recording
mdC3 on dbC3, the updated row for u1 is in the store and satisfies the
bound. -/
theorem claim_c9_ledger_le_witness :
    ClubMember.mk "c1" "u1" "member" 0 1 1
        ∈ (recordAll [("m9", 3, mdC3)] dbC3).members ∧
    (ClubMember.mk "c1" "u1" "member" 0 1 1).matchesWon
      ≤ (ClubMember.mk "c1" "u1" "member" 0 1 1).matchesPlayed :=
  ⟨by decide,
   claim_c9_ledger_le [("m9", 3, mdC3)] dbC3 (by decide)
     (ClubMember.mk "c1" "u1" "member" 0 1 1) (by decide)⟩

/-- Concrete store for C10: one membership row and no sessions, so any
session id is dangling. -/
def dbC10 : Db := ⟨[], [⟨"c1", "u1", "member", 0, 3, 2⟩], []⟩

/-- Payload for C10: a match against the nonexistent session "ghost". -/
def mdC10 : MatchData := ⟨"ghost", ["u1"], ["u2"], 21, 10, .A⟩

/-- C10 (counterexample): recording against a nonexistent session id does
*not* fail — `recordMatch` pushes and returns the match and silently
skips the ledger update, while the claim requires a NotFound failure and
no created Match. -/
theorem claim_c10_counterexample :
    dbC10.sessions.find? (fun s => s.id == mdC10.sessionId) = none ∧
    (recordMatch "m7" 9 mdC10 dbC10).1.matchLog.length
      = dbC10.matchLog.length + 1 ∧
    (recordMatch "m7" 9 mdC10 dbC10).1.members = dbC10.members ∧
    (recordMatch "m7" 9 mdC10 dbC10).2.sessionId = "ghost" := by
  decide

/-- C10 (amended): a `recordMatch` whose session id resolves to no session
succeeds silently: the match is appended to the log and returned, and
every membership row (and the session list) is left unchanged — the
ledger update is skipped rather than a NotFound error being raised. -/
theorem claim_c10_amended (freshId : String) (now : Nat) (md : MatchData) (db : Db)
    (h : db.sessions.find? (fun s => s.id == md.sessionId) = none) :
    (recordMatch freshId now md db).1.members = db.members ∧
    (recordMatch freshId now md db).1.matchLog
      = db.matchLog ++ [(recordMatch freshId now md db).2] ∧
    (recordMatch freshId now md db).1.sessions = db.sessions := by
  refine ⟨?_, ?_, ?_⟩ <;> simp [recordMatch, h]

/-- Witness for `claim_c10_amended` at the C10 store. -/
theorem claim_c10_amended_witness :
    (recordMatch "m8" 11 mdC10 dbC10).1.members = dbC10.members ∧
    (recordMatch "m8" 11 mdC10 dbC10).1.matchLog
      = dbC10.matchLog ++ [(recordMatch "m8" 11 mdC10 dbC10).2] ∧
    (recordMatch "m8" 11 mdC10 dbC10).1.sessions = dbC10.sessions :=
  claim_c10_amended "m8" 11 mdC10 dbC10 (by decide)
